import Mathlib

/-!
Shallow embedding of the coordinate-conversion core of the
falcon-bms-tacview-converter repository
(src/src/utils/coordinate_converter.py, class CoordinateConverter).

Real numbers of the Python code are modelled as rationals; Python dict
lookups with `.get` are modelled as `Option` fields; Python exceptions are
modelled as `Except` results.
-/

namespace FalconBMS

/-- Heightmap bounds in game feet: theater_config['heightmap_bounds']
with keys min_x, max_x, min_y, max_y. -/
structure Bounds where
  min_x : ℚ
  max_x : ℚ
  min_y : ℚ
  max_y : ℚ
deriving DecidableEq

/-- Theater configuration as consumed by CoordinateConverter.
Optional fields model Python `dict.get(key)` returning None when the key is
absent.  `heightmap_width`/`heightmap_height` are heightmap_size[0] and
heightmap_size[1].  `proj_lon_0`, `proj_k`, `proj_k_0` model the entries of
parse_proj_str(projection_string) that game_to_latlon_grid_karney reads
(params.get("lon_0"), params.get("k"), params.get("k_0")). -/
structure TheaterConfig where
  heightmap_bounds : Bounds
  heightmap_width : ℕ
  heightmap_height : ℕ
  theater_size_meters : Option ℚ
  meter_res : Option ℚ
  grid_to_ft : Option ℚ
  ft_to_grid : Option ℚ
  theater_size_km : Option ℚ
  center_lat : Option ℚ
  center_lon : Option ℚ
  proj_lon_0 : Option ℚ
  proj_k : Option ℚ
  proj_k_0 : Option ℚ
deriving DecidableEq

/-- FEET_PER_METER = 0.30488 in CoordinateConverter.feet_to_meters. -/
def FEET_PER_METER : ℚ := 30488 / 100000

/-- FT_TO_METERS = 0.30488 in CoordinateConverter.meters_to_feet. -/
def FT_TO_METERS : ℚ := 30488 / 100000

/-- CoordinateConverter.feet_to_meters: feet * FEET_PER_METER. -/
def feet_to_meters (feet : ℚ) : ℚ := feet * FEET_PER_METER

/-- CoordinateConverter.meters_to_feet: meters / FT_TO_METERS. -/
def meters_to_feet (meters : ℚ) : ℚ := meters / FT_TO_METERS

/-- The errors get_elevation can raise.  coordinatesOutOfBounds carries the
offending coordinate (x_pos, y_pos) and the valid range, as the f-string
message of CoordinatesOutOfBoundsError does; heightmapReadError carries the
number of bytes obtained, as the f-string of HeightmapReadError does. -/
inductive ElevationError where
  | heightmapNotFound : ElevationError
  | coordinatesOutOfBounds (x_pos y_pos min_x max_x min_y max_y : ℚ) : ElevationError
  | heightmapReadError (got : ℕ) : ElevationError
deriving DecidableEq

/-- Python int() applied to a float: truncation toward zero. -/
def pyInt (q : ℚ) : ℤ := if q < 0 then ⌈q⌉ else ⌊q⌋

/-- max lo (min hi v): the clamping pattern max(0, min(dim - 1, v)) of
get_elevation. -/
def clampInt (lo hi v : ℤ) : ℤ := max lo (min hi v)

/-- x_ratio = (x_pos - bounds['min_x']) / (bounds['max_x'] - bounds['min_x']). -/
def x_ratio (b : Bounds) (x_pos : ℚ) : ℚ := (x_pos - b.min_x) / (b.max_x - b.min_x)

/-- y_ratio = (y_pos - bounds['min_y']) / (bounds['max_y'] - bounds['min_y']). -/
def y_ratio (b : Bounds) (y_pos : ℚ) : ℚ := (y_pos - b.min_y) / (b.max_y - b.min_y)

/-- pixel_x = max(0, min(width - 1, int(x_ratio * (width - 1)))). -/
def pixel_x (b : Bounds) (width : ℕ) (x_pos : ℚ) : ℤ :=
  clampInt 0 ((width : ℤ) - 1) (pyInt (x_ratio b x_pos * ((width : ℚ) - 1)))

/-- pixel_y = max(0, min(height - 1, int((1.0 - y_ratio) * (height - 1))))
(Y flipped). -/
def pixel_y (b : Bounds) (height : ℕ) (y_pos : ℚ) : ℤ :=
  clampInt 0 ((height : ℤ) - 1) (pyInt ((1 - y_ratio b y_pos) * ((height : ℚ) - 1)))

/-- file_offset = (pixel_y * width + pixel_x) * 2 (2 bytes per 16-bit value). -/
def file_offset (width : ℕ) (px py : ℤ) : ℤ := (py * (width : ℤ) + px) * 2

/-- The bounds check of get_elevation:
x_pos < min_x or x_pos > max_x or y_pos < min_y or y_pos > max_y. -/
def outOfBounds (b : Bounds) (x_pos y_pos : ℚ) : Bool :=
  decide (x_pos < b.min_x) || decide (x_pos > b.max_x) ||
  decide (y_pos < b.min_y) || decide (y_pos > b.max_y)

/-- The coordinate normalization at the top of get_elevation: inputs are kept
as-is when from_feet, otherwise converted with meters_to_feet. -/
def to_feet_pos (from_feet : Bool) (v : ℚ) : ℚ :=
  if from_feet then v else meters_to_feet v

/-- A byte of the heightmap file. -/
abbrev Byte := Fin 256

/-- f.seek(offset); f.read(n): a positioned read of up to n bytes, short at
end of file. -/
def readBytes (file : List Byte) (offset n : ℕ) : List Byte :=
  (file.drop offset).take n

/-- struct.unpack of a 2-byte little-endian unsigned 16-bit integer. -/
def u16le (b0 b1 : Byte) : ℕ := b0.val + 256 * b1.val

/-- CoordinateConverter.get_elevation.  The heightmap file is modelled as an
optional list of bytes: `none` models self.heightmap_path being None or
os.path.exists failing (the _load_heightmap check), `some file` models an
existing file with the given contents.  The positioned read of 2 bytes
yields exactly 2 bytes or fewer; `len(raw_bytes) != 2` raises
HeightmapReadError, otherwise the little-endian unsigned decode is returned
directly (values are already feet, no scaling). -/
def get_elevation (cfg : TheaterConfig) (heightmap : Option (List Byte))
    (game_x game_y : ℚ) (from_feet : Bool) : Except ElevationError ℕ :=
  match heightmap with
  | none => .error .heightmapNotFound
  | some file =>
    let b := cfg.heightmap_bounds
    let x_pos := to_feet_pos from_feet game_x
    let y_pos := to_feet_pos from_feet game_y
    if outOfBounds b x_pos y_pos then
      .error (.coordinatesOutOfBounds x_pos y_pos b.min_x b.max_x b.min_y b.max_y)
    else
      let px := pixel_x b cfg.heightmap_width x_pos
      let py := pixel_y b cfg.heightmap_height y_pos
      let off := file_offset cfg.heightmap_width px py
      match readBytes file off.toNat 2 with
      | [b0, b1] => .ok (u16le b0 b1)
      | bs => .error (.heightmapReadError bs.length)

/-- The byte offsets at which get_elevation performs a positioned read,
in order.  Translated from the same source: the single seek happens only
after the heightmap-existence check and the bounds check both pass. -/
def get_elevation_reads (cfg : TheaterConfig) (heightmap : Option (List Byte))
    (game_x game_y : ℚ) (from_feet : Bool) : List ℕ :=
  match heightmap with
  | none => []
  | some _ =>
    let b := cfg.heightmap_bounds
    let x_pos := to_feet_pos from_feet game_x
    let y_pos := to_feet_pos from_feet game_y
    if outOfBounds b x_pos y_pos then
      []
    else
      let px := pixel_x b cfg.heightmap_width x_pos
      let py := pixel_y b cfg.heightmap_height y_pos
      [(file_offset cfg.heightmap_width px py).toNat]

/-- True exactly on the CoordinatesOutOfBounds outcome of get_elevation. -/
def isOutOfBoundsError : Except ElevationError ℕ → Bool
  | .error (.coordinatesOutOfBounds _ _ _ _ _ _) => true
  | _ => false

/-- METERS_TO_FT = 3.28084 as hard-coded in the grid_to_ft fallback of
game_to_latlon_grid_karney. -/
def METERS_TO_FT : ℚ := 328084 / 100000

/-- Python truthiness of an optional number, as tested by
`all([theater_size_meters, meter_res, grid_to_ft, ft_to_grid])`:
None and 0/0.0 are falsy. -/
def truthy : Option ℚ → Bool
  | none => false
  | some q => decide (q ≠ 0)

/-- The four grid constants of the Karney path after the in-function
fallback resolution. -/
structure GridConstants where
  theater_size_meters : ℚ
  meter_res : ℚ
  grid_to_ft : ℚ
  ft_to_grid : ℚ
deriving DecidableEq

/-- The constant resolution at the top of game_to_latlon_grid_karney:
the configured values are used when all four are truthy, otherwise all four
are recomputed from theater_size_km (default 1024) and
heightmap_samples = heightmap_size[0]. -/
def resolveGridConstants (cfg : TheaterConfig) : GridConstants :=
  if truthy cfg.theater_size_meters && truthy cfg.meter_res &&
     truthy cfg.grid_to_ft && truthy cfg.ft_to_grid then
    { theater_size_meters := cfg.theater_size_meters.getD 0
      meter_res := cfg.meter_res.getD 0
      grid_to_ft := cfg.grid_to_ft.getD 0
      ft_to_grid := cfg.ft_to_grid.getD 0 }
  else
    let theater_size_km := cfg.theater_size_km.getD 1024
    let theater_size_meters := theater_size_km * 1000
    let meter_res := theater_size_meters / (cfg.heightmap_width : ℚ)
    let grid_to_ft := meter_res * METERS_TO_FT
    { theater_size_meters := theater_size_meters
      meter_res := meter_res
      grid_to_ft := grid_to_ft
      ft_to_grid := 1 / grid_to_ft }

/-- An abstract KTransverseMercator projector instance (pygeodesy is an
external library).  forward takes (lat, lon, lon0-reference) and returns
(easting, northing); reverse takes (x, y, lon0-reference) and returns
(lat, lon). -/
structure KTM where
  forward : ℚ → ℚ → ℚ → ℚ × ℚ
  reverse : ℚ → ℚ → ℚ → ℚ × ℚ

/-- A Python-level failure of the conversion call. -/
inductive PyError where
  | attributeError (name : String) : PyError
deriving DecidableEq

/-- CoordinateConverter.game_to_latlon_grid_karney, parameterized by
KARNEY_AVAILABLE and by the abstract projector constructor
ktmOf lon0 k0 standing for KTransverseMercator(a_earth=WGS84, lon0, k0).

When KARNEY_AVAILABLE is false the code executes
`return self.game_to_latlon_grid_based(game_x, game_y, from_feet)`;
no method or function named game_to_latlon_grid_based is defined anywhere in
the repository, so this attribute access raises AttributeError at runtime. -/
def game_to_latlon_grid_karney (karneyAvailable : Bool) (ktmOf : ℚ → ℚ → KTM)
    (cfg : TheaterConfig) (game_x game_y : ℚ) (from_feet : Bool) :
    Except PyError (ℚ × ℚ) :=
  if !karneyAvailable then
    .error (.attributeError "game_to_latlon_grid_based")
  else
    let heightmap_samples : ℚ := (cfg.heightmap_width : ℚ)
    let heightmap_size_minus_one : ℚ := heightmap_samples - 1
    let c := resolveGridConstants cfg
    let grid_offset := heightmap_size_minus_one / 2
    let sim_x := if from_feet then game_x else meters_to_feet game_x
    let sim_y := if from_feet then game_y else meters_to_feet game_y
    let grid_y := -grid_offset + sim_y * c.ft_to_grid
    let grid_x := -grid_offset + sim_x * c.ft_to_grid
    let x0 := grid_x + 1 / 2 * heightmap_size_minus_one
    let z0 := 0 - (grid_y - 1 / 2 * heightmap_size_minus_one)
    let x1 := x0 * c.meter_res
    let z1 := z0 * c.meter_res
    let z2 := c.theater_size_meters - z1
    let center_lat := cfg.center_lat.getD (385 / 10)
    let center_lon := cfg.center_lon.getD (1275 / 10)
    let lon0 := cfg.proj_lon_0.getD center_lon
    let k0 := cfg.proj_k.getD (cfg.proj_k_0.getD (9996 / 10000))
    let ktm := ktmOf lon0 k0
    let center_result := ktm.forward center_lat center_lon center_lon
    let center_x_proj := center_result.1
    let center_y_proj := center_result.2
    let offset_x := center_x_proj - c.theater_size_meters / 2
    let offset_y := center_y_proj - c.theater_size_meters / 2
    let final_x := x1 + offset_x
    let final_y := z2 + offset_y
    .ok (ktm.reverse final_x final_y center_lon)

/-- CoordinateConverter.game_to_latlon: the generic pyproj-based conversion.
projInverse models self.proj(x_m, y_m, inverse=True), the external pyproj
inverse projection returning (lon, lat); the returned pair is (lat, lon).
(The np.float32 narrowing of the inputs is not modelled; it does not matter
for any claim about this path.) -/
def game_to_latlon (projInverse : ℚ → ℚ → ℚ × ℚ)
    (game_x game_y : ℚ) (from_feet : Bool) : ℚ × ℚ :=
  let game_x_m := if from_feet then feet_to_meters game_x else game_x
  let game_y_m := if from_feet then feet_to_meters game_y else game_y
  let r := projInverse game_x_m game_y_m
  (r.2, r.1)

/-- True exactly when the conversion returned a (lat, lon) pair. -/
def isOkLatLon : Except PyError (ℚ × ℚ) → Bool
  | .ok _ => true
  | .error _ => false

/-- A small concrete theater used to instantiate the theorems: bounds
(0,0)-(4,4) game feet, a 3 x 3 raster, all grid-exact fields present. -/
def cfgW : TheaterConfig :=
  { heightmap_bounds := { min_x := 0, max_x := 4, min_y := 0, max_y := 4 }
    heightmap_width := 3
    heightmap_height := 3
    theater_size_meters := some 1024000
    meter_res := some 31250
    grid_to_ft := some 102526
    ft_to_grid := some (1 / 102526)
    theater_size_km := some 1024
    center_lat := some 38
    center_lon := some 127
    proj_lon_0 := some 127
    proj_k := some (9996 / 10000)
    proj_k_0 := none }

/-- A concrete two-byte heightmap file: low byte 5, high byte 1. -/
def fileW : List Byte := [5, 1]

/-- C9: feet_to_meters and meters_to_feet use one identical fixed conversion
constant (0.30488) in both directions, and the round trip
feet_to_meters (meters_to_feet v) returns v exactly, for every v. -/
theorem C9_unit_roundtrip :
    FEET_PER_METER = FT_TO_METERS ∧
    ∀ v : ℚ, feet_to_meters (meters_to_feet v) = v := by
  refine ⟨rfl, fun v => ?_⟩
  unfold feet_to_meters meters_to_feet FEET_PER_METER FT_TO_METERS
  exact div_mul_cancel₀ v (by norm_num)

/-- C7: with no heightmap path, or a path that does not exist (the heightmap
argument is none), get_elevation fails with HeightmapNotFound and performs
no positioned read at all, for every coordinate and unit flag. -/
theorem C7_missing_heightmap (cfg : TheaterConfig) (game_x game_y : ℚ)
    (from_feet : Bool) :
    get_elevation cfg none game_x game_y from_feet = .error .heightmapNotFound ∧
    get_elevation_reads cfg none game_x game_y from_feet = [] :=
  ⟨rfl, rfl⟩

/-- C2 (code bug): when the high-precision projector is unavailable
(KARNEY_AVAILABLE is false), game_to_latlon_grid_karney executes
`return self.game_to_latlon_grid_based(...)`, but no such method exists
anywhere in the repository, so the call raises AttributeError instead of
returning a latitude/longitude result. -/
theorem C2_karney_unavailable_raises (ktmOf : ℚ → ℚ → KTM)
    (cfg : TheaterConfig) (game_x game_y : ℚ) (from_feet : Bool) :
    game_to_latlon_grid_karney false ktmOf cfg game_x game_y from_feet =
      .error (.attributeError "game_to_latlon_grid_based") ∧
    isOkLatLon (game_to_latlon_grid_karney false ktmOf cfg game_x game_y from_feet)
      = false :=
  ⟨rfl, rfl⟩

/-- C5: the byte offset of the single positioned read equals
(pixel_y * width + pixel_x) * 2; pixel (0,0) gives byte offset 0 and pixel
(width-1, height-1) gives byte offset (width*height-1)*2; and for any
in-bounds query, get_elevation reads exactly that one offset, computed by
the same formula. -/
theorem C5_byte_offset (cfg : TheaterConfig) (file : List Byte)
    (game_x game_y : ℚ) (from_feet : Bool)
    (hin : outOfBounds cfg.heightmap_bounds (to_feet_pos from_feet game_x)
      (to_feet_pos from_feet game_y) = false) :
    (∀ (w : ℕ) (px py : ℤ), file_offset w px py = (py * (w : ℤ) + px) * 2) ∧
    (∀ w : ℕ, file_offset w 0 0 = 0) ∧
    (∀ w h : ℕ, file_offset w ((w : ℤ) - 1) ((h : ℤ) - 1) =
      ((w : ℤ) * (h : ℤ) - 1) * 2) ∧
    get_elevation_reads cfg (some file) game_x game_y from_feet =
      [(file_offset cfg.heightmap_width
        (pixel_x cfg.heightmap_bounds cfg.heightmap_width
          (to_feet_pos from_feet game_x))
        (pixel_y cfg.heightmap_bounds cfg.heightmap_height
          (to_feet_pos from_feet game_y))).toNat] := by
  refine ⟨fun w px py => rfl, fun w => by simp [file_offset],
    fun w h => by unfold file_offset; ring, ?_⟩
  simp only [get_elevation_reads, hin]
  simp

/-- C5 witness: the offset log of a concrete in-bounds query. -/
theorem C5_byte_offset_witness :
    outOfBounds cfgW.heightmap_bounds (to_feet_pos true 0) (to_feet_pos true 0)
      = false ∧
    get_elevation_reads cfgW (some fileW) 0 0 true =
      [(file_offset cfgW.heightmap_width
        (pixel_x cfgW.heightmap_bounds cfgW.heightmap_width (to_feet_pos true 0))
        (pixel_y cfgW.heightmap_bounds cfgW.heightmap_height
          (to_feet_pos true 0))).toNat] :=
  ⟨by decide, (C5_byte_offset cfgW fileW 0 0 true (by decide)).2.2.2⟩

/-- Pixel X index as the spec words it for C1: clamp of round-to-nearest of
xRatio * (width - 1). -/
def pixel_x_specRound (b : Bounds) (width : ℕ) (x_pos : ℚ) : ℤ :=
  clampInt 0 ((width : ℤ) - 1) (round (x_ratio b x_pos * ((width : ℚ) - 1)))

/-- Pixel Y index as the spec words it for C1: clamp of round-to-nearest of
(1 - yRatio) * (height - 1). -/
def pixel_y_specRound (b : Bounds) (height : ℕ) (y_pos : ℚ) : ℤ :=
  clampInt 0 ((height : ℤ) - 1) (round ((1 - y_ratio b y_pos) * ((height : ℚ) - 1)))

/-- Pixel X index with truncation (floor, since the product is nonnegative
for in-bounds queries) in place of round-to-nearest. -/
def pixel_x_specFloor (b : Bounds) (width : ℕ) (x_pos : ℚ) : ℤ :=
  clampInt 0 ((width : ℤ) - 1) ⌊x_ratio b x_pos * ((width : ℚ) - 1)⌋

/-- Pixel Y index with truncation (floor) in place of round-to-nearest. -/
def pixel_y_specFloor (b : Bounds) (height : ℕ) (y_pos : ℚ) : ℤ :=
  clampInt 0 ((height : ℤ) - 1) ⌊(1 - y_ratio b y_pos) * ((height : ℚ) - 1)⌋

/-- C1 counterexample: on the 3 x 3 raster with bounds (0,0)-(4,4), the
in-bounds coordinate x = 3.6 gives xRatio * (width-1) = 1.8; the code takes
int(1.8) = 1 while the claim's round-to-nearest gives 2. -/
theorem C1_counterexample :
    outOfBounds cfgW.heightmap_bounds (18 / 5) 0 = false ∧
    pixel_x cfgW.heightmap_bounds cfgW.heightmap_width (18 / 5) = 1 ∧
    pixel_x_specRound cfgW.heightmap_bounds cfgW.heightmap_width (18 / 5) = 2 ∧
    pixel_x cfgW.heightmap_bounds cfgW.heightmap_width (18 / 5) ≠
      pixel_x_specRound cfgW.heightmap_bounds cfgW.heightmap_width (18 / 5) := by
  have h0 : outOfBounds cfgW.heightmap_bounds (18 / 5) 0 = false := by
    unfold outOfBounds cfgW
    norm_num
  have h1 : pixel_x cfgW.heightmap_bounds cfgW.heightmap_width (18 / 5) = 1 := by
    unfold pixel_x clampInt pyInt x_ratio cfgW
    norm_num
  have h2 : pixel_x_specRound cfgW.heightmap_bounds cfgW.heightmap_width (18 / 5)
      = 2 := by
    unfold pixel_x_specRound clampInt x_ratio cfgW
    norm_num [round_eq]
  exact ⟨h0, h1, h2, by rw [h1, h2]; decide⟩

/-- pyInt agrees with floor on nonnegative arguments. -/
lemma pyInt_of_nonneg (q : ℚ) (h : 0 ≤ q) : pyInt q = ⌊q⌋ :=
  if_neg (not_lt.mpr h)

/-- Clamping into an empty range [0, hi] with hi < 0 always produces 0. -/
lemma clampInt_of_hi_neg (hi v : ℤ) (h : hi < 0) : clampInt 0 hi v = 0 :=
  max_eq_left (le_of_lt (lt_of_le_of_lt (min_le_left _ _) h))

/-- The bounds check passing means the position is inside the closed box. -/
lemma outOfBounds_false_iff (b : Bounds) (x_pos y_pos : ℚ) :
    outOfBounds b x_pos y_pos = false ↔
    b.min_x ≤ x_pos ∧ x_pos ≤ b.max_x ∧ b.min_y ≤ y_pos ∧ y_pos ≤ b.max_y := by
  simp only [outOfBounds, Bool.or_eq_false_iff, decide_eq_false_iff_not, not_lt,
    gt_iff_lt]
  tauto

/-- C1 (amended): for every in-bounds coordinate, the pixel indices used by
get_elevation equal clamp(floor(xRatio * (width-1)), 0, width-1) and
clamp(floor((1 - yRatio) * (height-1)), 0, height-1): Python int()
truncation, which is floor here because the products are nonnegative, not
round-to-nearest. -/
theorem C1_pixel_indices_floor (b : Bounds) (width height : ℕ) (x_pos y_pos : ℚ)
    (hx : b.min_x < b.max_x) (hy : b.min_y < b.max_y)
    (hin : outOfBounds b x_pos y_pos = false) :
    pixel_x b width x_pos = pixel_x_specFloor b width x_pos ∧
    pixel_y b height y_pos = pixel_y_specFloor b height y_pos := by
  rw [outOfBounds_false_iff] at hin
  obtain ⟨h1, h2, h3, h4⟩ := hin
  have hxr0 : 0 ≤ x_ratio b x_pos :=
    div_nonneg (sub_nonneg.mpr h1) (le_of_lt (sub_pos.mpr hx))
  have hyr1 : y_ratio b y_pos ≤ 1 :=
    (div_le_one (sub_pos.mpr hy)).mpr (by linarith)
  constructor
  · cases Nat.eq_zero_or_pos width with
    | inl h0 =>
      subst h0
      unfold pixel_x pixel_x_specFloor
      rw [clampInt_of_hi_neg _ _ (by norm_num),
        clampInt_of_hi_neg _ _ (by norm_num)]
    | inr hpos =>
      have hc : (0 : ℚ) ≤ (width : ℚ) - 1 := by
        have : (1 : ℚ) ≤ (width : ℚ) := by exact_mod_cast hpos
        linarith
      unfold pixel_x pixel_x_specFloor
      rw [pyInt_of_nonneg _ (mul_nonneg hxr0 hc)]
  · cases Nat.eq_zero_or_pos height with
    | inl h0 =>
      subst h0
      unfold pixel_y pixel_y_specFloor
      rw [clampInt_of_hi_neg _ _ (by norm_num),
        clampInt_of_hi_neg _ _ (by norm_num)]
    | inr hpos =>
      have hc : (0 : ℚ) ≤ (height : ℚ) - 1 := by
        have : (1 : ℚ) ≤ (height : ℚ) := by exact_mod_cast hpos
        linarith
      unfold pixel_y pixel_y_specFloor
      rw [pyInt_of_nonneg _ (mul_nonneg (by linarith) hc)]

/-- C1 witness: the amended statement at the concrete coordinate 3.6. -/
theorem C1_pixel_indices_floor_witness :
    (cfgW.heightmap_bounds.min_x < cfgW.heightmap_bounds.max_x ∧
     cfgW.heightmap_bounds.min_y < cfgW.heightmap_bounds.max_y ∧
     outOfBounds cfgW.heightmap_bounds (18 / 5) 0 = false) ∧
    pixel_x cfgW.heightmap_bounds 3 (18 / 5) =
      pixel_x_specFloor cfgW.heightmap_bounds 3 (18 / 5) ∧
    pixel_y cfgW.heightmap_bounds 3 0 =
      pixel_y_specFloor cfgW.heightmap_bounds 3 0 :=
  ⟨⟨by norm_num [cfgW], by norm_num [cfgW],
      by unfold outOfBounds cfgW; norm_num⟩,
    C1_pixel_indices_floor cfgW.heightmap_bounds 3 3 (18 / 5) 0
      (by norm_num [cfgW]) (by norm_num [cfgW])
      (by unfold outOfBounds cfgW; norm_num)⟩

/-- A query whose bounds check passes never produces the
CoordinatesOutOfBounds failure. -/
lemma get_elevation_not_oob (cfg : TheaterConfig) (file : List Byte)
    (gx gy : ℚ) (ff : Bool)
    (h : outOfBounds cfg.heightmap_bounds (to_feet_pos ff gx)
      (to_feet_pos ff gy) = false) :
    isOutOfBoundsError (get_elevation cfg (some file) gx gy ff) = false := by
  simp only [get_elevation, h]
  simp only [Bool.false_eq_true, if_false]
  split <;> rfl

/-- C4: get_elevation accepts a coordinate exactly at (min_x, min_y) and
exactly at (max_x, max_y) (bounds inclusive); every coordinate whose
feet-normalized position fails the bounds check, for either unit flag,
fails with CoordinatesOutOfBounds carrying the offending coordinate and the
valid range; and in particular so does x = max_x + 1. -/
theorem C4_inclusive_bounds (cfg : TheaterConfig) (file : List Byte) (gy : ℚ)
    (hx : cfg.heightmap_bounds.min_x ≤ cfg.heightmap_bounds.max_x)
    (hy : cfg.heightmap_bounds.min_y ≤ cfg.heightmap_bounds.max_y) :
    isOutOfBoundsError (get_elevation cfg (some file)
      cfg.heightmap_bounds.min_x cfg.heightmap_bounds.min_y true) = false ∧
    isOutOfBoundsError (get_elevation cfg (some file)
      cfg.heightmap_bounds.max_x cfg.heightmap_bounds.max_y true) = false ∧
    (∀ (gx2 gy2 : ℚ) (ff : Bool),
      outOfBounds cfg.heightmap_bounds (to_feet_pos ff gx2)
        (to_feet_pos ff gy2) = true →
      get_elevation cfg (some file) gx2 gy2 ff =
        .error (.coordinatesOutOfBounds (to_feet_pos ff gx2) (to_feet_pos ff gy2)
          cfg.heightmap_bounds.min_x cfg.heightmap_bounds.max_x
          cfg.heightmap_bounds.min_y cfg.heightmap_bounds.max_y)) ∧
    get_elevation cfg (some file) (cfg.heightmap_bounds.max_x + 1) gy true =
      .error (.coordinatesOutOfBounds (cfg.heightmap_bounds.max_x + 1) gy
        cfg.heightmap_bounds.min_x cfg.heightmap_bounds.max_x
        cfg.heightmap_bounds.min_y cfg.heightmap_bounds.max_y) := by
  have hmin : outOfBounds cfg.heightmap_bounds
      (to_feet_pos true cfg.heightmap_bounds.min_x)
      (to_feet_pos true cfg.heightmap_bounds.min_y) = false := by
    simp only [to_feet_pos, if_true]
    exact (outOfBounds_false_iff _ _ _).mpr ⟨le_refl _, hx, le_refl _, hy⟩
  have hmax : outOfBounds cfg.heightmap_bounds
      (to_feet_pos true cfg.heightmap_bounds.max_x)
      (to_feet_pos true cfg.heightmap_bounds.max_y) = false := by
    simp only [to_feet_pos, if_true]
    exact (outOfBounds_false_iff _ _ _).mpr ⟨hx, le_refl _, hy, le_refl _⟩
  have huniv : ∀ (gx2 gy2 : ℚ) (ff : Bool),
      outOfBounds cfg.heightmap_bounds (to_feet_pos ff gx2)
        (to_feet_pos ff gy2) = true →
      get_elevation cfg (some file) gx2 gy2 ff =
        .error (.coordinatesOutOfBounds (to_feet_pos ff gx2) (to_feet_pos ff gy2)
          cfg.heightmap_bounds.min_x cfg.heightmap_bounds.max_x
          cfg.heightmap_bounds.min_y cfg.heightmap_bounds.max_y) := by
    intro gx2 gy2 ff hoob
    simp only [get_elevation, hoob, if_true]
  have hoob1 : outOfBounds cfg.heightmap_bounds
      (to_feet_pos true (cfg.heightmap_bounds.max_x + 1))
      (to_feet_pos true gy) = true := by
    simp only [to_feet_pos, if_true, outOfBounds, Bool.or_eq_true,
      decide_eq_true_eq, gt_iff_lt]
    exact Or.inl (Or.inl (Or.inr (lt_add_one _)))
  refine ⟨get_elevation_not_oob cfg file _ _ true hmin,
    get_elevation_not_oob cfg file _ _ true hmax, huniv, ?_⟩
  have hres := huniv (cfg.heightmap_bounds.max_x + 1) gy true hoob1
  simpa only [to_feet_pos, if_true] using hres

/-- C4 witness: the concrete theater with bounds (0,0)-(4,4), including the
universal out-of-bounds conjunct instantiated below the minimum, at x = -1. -/
theorem C4_inclusive_bounds_witness :
    (cfgW.heightmap_bounds.min_x ≤ cfgW.heightmap_bounds.max_x ∧
     cfgW.heightmap_bounds.min_y ≤ cfgW.heightmap_bounds.max_y ∧
     outOfBounds cfgW.heightmap_bounds (to_feet_pos true (-1))
       (to_feet_pos true 0) = true) ∧
    isOutOfBoundsError (get_elevation cfgW (some fileW)
      cfgW.heightmap_bounds.min_x cfgW.heightmap_bounds.min_y true) = false ∧
    isOutOfBoundsError (get_elevation cfgW (some fileW)
      cfgW.heightmap_bounds.max_x cfgW.heightmap_bounds.max_y true) = false ∧
    get_elevation cfgW (some fileW) (-1) 0 true =
      .error (.coordinatesOutOfBounds (to_feet_pos true (-1)) (to_feet_pos true 0)
        cfgW.heightmap_bounds.min_x cfgW.heightmap_bounds.max_x
        cfgW.heightmap_bounds.min_y cfgW.heightmap_bounds.max_y) ∧
    get_elevation cfgW (some fileW) (cfgW.heightmap_bounds.max_x + 1) 0 true =
      .error (.coordinatesOutOfBounds (cfgW.heightmap_bounds.max_x + 1) 0
        cfgW.heightmap_bounds.min_x cfgW.heightmap_bounds.max_x
        cfgW.heightmap_bounds.min_y cfgW.heightmap_bounds.max_y) :=
  ⟨⟨by norm_num [cfgW], by norm_num [cfgW],
      by unfold outOfBounds to_feet_pos cfgW; norm_num⟩,
    (C4_inclusive_bounds cfgW fileW 0 (by norm_num [cfgW])
      (by norm_num [cfgW])).1,
    (C4_inclusive_bounds cfgW fileW 0 (by norm_num [cfgW])
      (by norm_num [cfgW])).2.1,
    (C4_inclusive_bounds cfgW fileW 0 (by norm_num [cfgW])
      (by norm_num [cfgW])).2.2.1 (-1) 0 true
      (by unfold outOfBounds to_feet_pos cfgW; norm_num),
    (C4_inclusive_bounds cfgW fileW 0 (by norm_num [cfgW])
      (by norm_num [cfgW])).2.2.2⟩

/-- The byte offset get_elevation seeks to, as a natural number. -/
def read_offset (cfg : TheaterConfig) (x_pos y_pos : ℚ) : ℕ :=
  (file_offset cfg.heightmap_width
    (pixel_x cfg.heightmap_bounds cfg.heightmap_width x_pos)
    (pixel_y cfg.heightmap_bounds cfg.heightmap_height y_pos)).toNat

/-- For an in-bounds query, get_elevation is determined by the 2-byte
positioned read at read_offset. -/
lemma get_elevation_of_inbounds (cfg : TheaterConfig) (file : List Byte)
    (gx gy : ℚ) (ff : Bool)
    (h : outOfBounds cfg.heightmap_bounds (to_feet_pos ff gx)
      (to_feet_pos ff gy) = false) :
    get_elevation cfg (some file) gx gy ff =
      match readBytes file (read_offset cfg (to_feet_pos ff gx)
        (to_feet_pos ff gy)) 2 with
      | [b0, b1] => .ok (u16le b0 b1)
      | bs => .error (.heightmapReadError bs.length) := by
  simp only [get_elevation, read_offset, h]
  simp only [Bool.false_eq_true, if_false]

/-- C6: for an in-bounds query, a positioned read returning fewer than 2
bytes makes get_elevation fail with HeightmapReadError (carrying the byte
count), while a read of exactly 2 bytes makes get_elevation return the
unsigned 16-bit little-endian decode low + 256 * high, directly, with no
scaling. -/
theorem C6_read_decode (cfg : TheaterConfig) (file : List Byte)
    (gx gy : ℚ) (ff : Bool)
    (hin : outOfBounds cfg.heightmap_bounds (to_feet_pos ff gx)
      (to_feet_pos ff gy) = false) :
    ((readBytes file (read_offset cfg (to_feet_pos ff gx)
        (to_feet_pos ff gy)) 2).length < 2 →
      get_elevation cfg (some file) gx gy ff =
        .error (.heightmapReadError (readBytes file
          (read_offset cfg (to_feet_pos ff gx) (to_feet_pos ff gy)) 2).length)) ∧
    (∀ b0 b1 : Byte, readBytes file (read_offset cfg (to_feet_pos ff gx)
        (to_feet_pos ff gy)) 2 = [b0, b1] →
      get_elevation cfg (some file) gx gy ff = .ok (b0.val + 256 * b1.val)) := by
  have hrw := get_elevation_of_inbounds cfg file gx gy ff hin
  constructor
  · intro hlen
    rw [hrw]
    rcases hbs : readBytes file (read_offset cfg (to_feet_pos ff gx)
        (to_feet_pos ff gy)) 2 with _ | ⟨b0, _ | ⟨b1, rest⟩⟩
    · simp
    · simp
    · rw [hbs] at hlen
      simp only [List.length_cons] at hlen
      omega
  · intro b0 b1 hbs
    rw [hrw, hbs]
    rfl

/-- C6 witness: reading offset 0 of the concrete two-byte file decodes to
5 + 256 * 1. -/
theorem C6_read_decode_witness :
    outOfBounds cfgW.heightmap_bounds (to_feet_pos true 0) (to_feet_pos true 4)
      = false ∧
    get_elevation cfgW (some fileW) 0 4 true =
      .ok ((5 : Byte).val + 256 * (1 : Byte).val) :=
  ⟨by unfold outOfBounds to_feet_pos cfgW; norm_num,
    (C6_read_decode cfgW fileW 0 4 true
      (by unfold outOfBounds to_feet_pos cfgW; norm_num)).2 5 1
      (by unfold readBytes read_offset file_offset pixel_x pixel_y x_ratio
            y_ratio pyInt clampInt to_feet_pos cfgW fileW
          norm_num)⟩

/-- C10: for positive raster dimensions and a coordinate passing the bounds
check, the clamped pixel indices lie in [0, width-1] x [0, height-1], the
byte offset lies in [0, (width*height-1)*2], and the 2-byte read ends at or
before byte width*height*2, the end of a well-formed raster. -/
theorem C10_offset_safety (b : Bounds) (width height : ℕ) (x_pos y_pos : ℚ)
    (hw : 0 < width) (hh : 0 < height)
    (hx : b.min_x < b.max_x) (hy : b.min_y < b.max_y)
    (hin : outOfBounds b x_pos y_pos = false) :
    (0 ≤ pixel_x b width x_pos ∧ pixel_x b width x_pos ≤ (width : ℤ) - 1) ∧
    (0 ≤ pixel_y b height y_pos ∧ pixel_y b height y_pos ≤ (height : ℤ) - 1) ∧
    0 ≤ file_offset width (pixel_x b width x_pos) (pixel_y b height y_pos) ∧
    file_offset width (pixel_x b width x_pos) (pixel_y b height y_pos) ≤
      ((width : ℤ) * (height : ℤ) - 1) * 2 ∧
    file_offset width (pixel_x b width x_pos) (pixel_y b height y_pos) + 2 ≤
      (width : ℤ) * (height : ℤ) * 2 := by
  have hw1 : (1 : ℤ) ≤ (width : ℤ) := by exact_mod_cast hw
  have hh1 : (1 : ℤ) ≤ (height : ℤ) := by exact_mod_cast hh
  have hpx0 : 0 ≤ pixel_x b width x_pos := le_max_left _ _
  have hpx1 : pixel_x b width x_pos ≤ (width : ℤ) - 1 :=
    max_le (by linarith) (min_le_left _ _)
  have hpy0 : 0 ≤ pixel_y b height y_pos := le_max_left _ _
  have hpy1 : pixel_y b height y_pos ≤ (height : ℤ) - 1 :=
    max_le (by linarith) (min_le_left _ _)
  have hkey : pixel_y b height y_pos * (width : ℤ) ≤
      ((height : ℤ) - 1) * (width : ℤ) :=
    mul_le_mul_of_nonneg_right hpy1 (by linarith)
  have hnn : 0 ≤ pixel_y b height y_pos * (width : ℤ) :=
    mul_nonneg hpy0 (by linarith)
  refine ⟨⟨hpx0, hpx1⟩, ⟨hpy0, hpy1⟩, ?_, ?_, ?_⟩
  · unfold file_offset
    linarith
  · unfold file_offset
    nlinarith
  · unfold file_offset
    nlinarith

/-- C10 witness: the concrete 3 x 3 theater at the in-bounds origin. -/
theorem C10_offset_safety_witness :
    (0 < 3 ∧ 0 < 3 ∧ cfgW.heightmap_bounds.min_x < cfgW.heightmap_bounds.max_x ∧
     cfgW.heightmap_bounds.min_y < cfgW.heightmap_bounds.max_y ∧
     outOfBounds cfgW.heightmap_bounds 0 0 = false) ∧
    file_offset 3 (pixel_x cfgW.heightmap_bounds 3 0)
      (pixel_y cfgW.heightmap_bounds 3 0) ≤ ((3 : ℤ) * (3 : ℤ) - 1) * 2 :=
  ⟨⟨by norm_num, by norm_num, by norm_num [cfgW], by norm_num [cfgW],
      by unfold outOfBounds cfgW; norm_num⟩,
    (C10_offset_safety cfgW.heightmap_bounds 3 3 0 0 (by norm_num) (by norm_num)
      (by norm_num [cfgW]) (by norm_num [cfgW])
      (by unfold outOfBounds cfgW; norm_num)).2.2.2.1⟩

/-- A theater configuration lacking all four grid-exact fields. -/
def cfgNoGrid : TheaterConfig :=
  { heightmap_bounds := { min_x := 0, max_x := 4, min_y := 0, max_y := 4 }
    heightmap_width := 4
    heightmap_height := 4
    theater_size_meters := none
    meter_res := none
    grid_to_ft := none
    ft_to_grid := none
    theater_size_km := none
    center_lat := some 38
    center_lon := some 127
    proj_lon_0 := some 127
    proj_k := some (9996 / 10000)
    proj_k_0 := none }

/-- A projector whose reverse projection is constantly (1, 1). -/
def ktmOfC3 : ℚ → ℚ → KTM := fun _ _ =>
  { forward := fun _ _ _ => (0, 0), reverse := fun _ _ _ => (1, 1) }

/-- A generic-path inverse projection that is constantly (0, 0). -/
def projInvC3 : ℚ → ℚ → ℚ × ℚ := fun _ _ => (0, 0)

/-- C3 counterexample: on a configuration lacking every grid-exact field,
game_to_latlon_grid_karney does not take the generic projection path: with a
projector whose inverse returns (1, 1) and a generic projection whose
inverse returns (0, 0), the result is the projector's value, not the
generic path's. -/
theorem C3_counterexample :
    (cfgNoGrid.theater_size_meters = none ∧ cfgNoGrid.meter_res = none ∧
     cfgNoGrid.grid_to_ft = none ∧ cfgNoGrid.ft_to_grid = none) ∧
    game_to_latlon_grid_karney true ktmOfC3 cfgNoGrid 1 1 true = .ok (1, 1) ∧
    game_to_latlon projInvC3 1 1 true = (0, 0) ∧
    game_to_latlon_grid_karney true ktmOfC3 cfgNoGrid 1 1 true ≠
      .ok (game_to_latlon projInvC3 1 1 true) := by
  refine ⟨⟨rfl, rfl, rfl, rfl⟩, rfl, rfl, ?_⟩
  intro h
  have h1 : game_to_latlon_grid_karney true ktmOfC3 cfgNoGrid 1 1 true
      = .ok (1, 1) := rfl
  have h2 : game_to_latlon projInvC3 1 1 true = (0, 0) := rfl
  rw [h1, h2] at h
  simp only [Except.ok.injEq, Prod.mk.injEq] at h
  exact one_ne_zero h.1

/-- C3 (amended): when any of the four grid-exact fields is missing or
zero, the Karney-path conversion derives all four constants from
theater_size_km (default 1024) and heightmap_samples, and completes the
grid-exact path without failing; it does not switch to the generic
projection path. -/
theorem C3_missing_fields_derive (cfg : TheaterConfig) (ktmOf : ℚ → ℚ → KTM)
    (gx gy : ℚ) (ff : Bool)
    (h : (truthy cfg.theater_size_meters && truthy cfg.meter_res &&
      truthy cfg.grid_to_ft && truthy cfg.ft_to_grid) = false) :
    resolveGridConstants cfg =
      { theater_size_meters := cfg.theater_size_km.getD 1024 * 1000
        meter_res := cfg.theater_size_km.getD 1024 * 1000 /
          (cfg.heightmap_width : ℚ)
        grid_to_ft := cfg.theater_size_km.getD 1024 * 1000 /
          (cfg.heightmap_width : ℚ) * METERS_TO_FT
        ft_to_grid := 1 / (cfg.theater_size_km.getD 1024 * 1000 /
          (cfg.heightmap_width : ℚ) * METERS_TO_FT) } ∧
    isOkLatLon (game_to_latlon_grid_karney true ktmOf cfg gx gy ff) = true := by
  constructor
  · unfold resolveGridConstants
    rw [h]
    rfl
  · rfl

/-- C3 witness: the configuration lacking all grid-exact fields. -/
theorem C3_missing_fields_derive_witness :
    (truthy cfgNoGrid.theater_size_meters && truthy cfgNoGrid.meter_res &&
      truthy cfgNoGrid.grid_to_ft && truthy cfgNoGrid.ft_to_grid) = false ∧
    isOkLatLon (game_to_latlon_grid_karney true ktmOfC3 cfgNoGrid 1 1 true)
      = true :=
  ⟨rfl, (C3_missing_fields_derive cfgNoGrid ktmOfC3 1 1 true rfl).2⟩

/-- C8: with the Karney projector available, the conversion result is
exactly the projector's inverse applied to (xm + offset_x, zm + offset_y),
where xm and zm are the raster-derived meters with both vertical flips
applied and (offset_x, offset_y) is the projector's forward projection of
the theater's declared center minus theater_size_meters / 2 in each
component. -/
theorem C8_offsets_and_inverse (ktmOf : ℚ → ℚ → KTM) (cfg : TheaterConfig)
    (gx gy : ℚ) (ff : Bool) :
    game_to_latlon_grid_karney true ktmOf cfg gx gy ff =
      (let c := resolveGridConstants cfg
       let w1 : ℚ := (cfg.heightmap_width : ℚ) - 1
       let sim_x := if ff then gx else meters_to_feet gx
       let sim_y := if ff then gy else meters_to_feet gy
       let xm := ((-(w1 / 2) + sim_x * c.ft_to_grid) + 1 / 2 * w1) * c.meter_res
       let zm := c.theater_size_meters -
         (0 - ((-(w1 / 2) + sim_y * c.ft_to_grid) - 1 / 2 * w1)) * c.meter_res
       let center_lat := cfg.center_lat.getD (385 / 10)
       let center_lon := cfg.center_lon.getD (1275 / 10)
       let ktm := ktmOf (cfg.proj_lon_0.getD center_lon)
         (cfg.proj_k.getD (cfg.proj_k_0.getD (9996 / 10000)))
       let fwdc := ktm.forward center_lat center_lon center_lon
       let offset_x := fwdc.1 - c.theater_size_meters / 2
       let offset_y := fwdc.2 - c.theater_size_meters / 2
       .ok (ktm.reverse (xm + offset_x) (zm + offset_y) center_lon)) := rfl

end FalconBMS
